import Mathlib

/-!
The scraper-api service: the image endpoint, its auth gate and its source filter.

A shallow embedding of `main.go`.  Go strings are byte sequences, so they are
lists of bytes here; package-level variables (`allowedSources`) and the process
environment become explicit arguments; the random source is the index that
`rand.Intn` hands back; the search provider is the outcome of the single
`http.Get`; a handler returns the response it wrote together with the outbound
requests it made.  Logging (`log.Printf`) has no effect on any of this and is
left out.
-/

set_option autoImplicit false
set_option maxRecDepth 100000

namespace ScraperApi

/-! ## Strings -/

/-- A Go string: an immutable sequence of bytes. -/
abbrev Str := List UInt8

/-- The bytes of a string literal of the source (Go source text is UTF-8). -/
def go (s : String) : Str :=
  s.data.flatMap String.utf8EncodeChar

/-- The function `strings.Split(s, sep)` for a separator of one byte: the pieces
of `s` between the occurrences of `sep`; one piece more than there are
separators, so `[""]` for the empty string. -/
def stringsSplit (s : Str) (sep : UInt8) : List Str :=
  match s with
  | [] => [[]]
  | c :: cs =>
    if c = sep then [] :: stringsSplit cs sep
    else
      match stringsSplit cs sep with
      | [] => [[c]]
      | p :: ps => (c :: p) :: ps

/-- The verb `%d` of `fmt` on a non-negative number. -/
def decimal (n : Nat) : Str :=
  (Nat.toDigits 10 n).map (fun c => c.toNat.toUInt8)

/-- The verb `%d` of `fmt` on an `int`. -/
def fmtD (z : Int) : Str :=
  if z < 0 then go "-" ++ decimal z.natAbs else decimal z.natAbs

/-! ## Package-level data -/

/-- The vocabulary `randomStrings`, in source order. -/
def randomStrings : List Str := [
  go "glitch art", go "dark aesthetic", go "cyberpunk",
  go "neon lights", go "vaporwave", go "synthwave",
  go "dark mode", go "high contrast", go "abstract dark",
  go "digital art", go "pixel art", go "retro dark",
  go "noir", go "monochrome", go "dark minimalism",
  go "glitch effect", go "dark fantasy", go "gothic",
  go "dark architecture", go "neon aesthetic", go "dark city",
  go "night photography", go "dark abstract", go "contrast photography",
  go "dark textures", go "glitch aesthetic", go "dark patterns",
  go "neon aesthetic", go "dark mood", go "high contrast photography",
  go "dark cyber", go "glitchy", go "dark neon",
  go "minimalist dark", go "dark geometric", go "neon glow",
  go "dark surreal", go "glitchcore", go "dark futuristic",
  go "neon city", go "dark minimal", go "high contrast art",
  go "dark digital", go "neon art", go "glitch photography",
  go "dark modern", go "neon abstract", go "dark tech",
  go "contrast art", go "dark visual", go "red neon",
  go "blue cyberpunk", go "purple glitch", go "green neon",
  go "cyan aesthetic", go "magenta dark", go "orange glow",
  go "yellow neon", go "pink cyber", go "red cyberpunk",
  go "blue neon lights", go "purple vaporwave", go "green glitch",
  go "cyan synthwave", go "magenta aesthetic", go "orange dark",
  go "yellow glow", go "pink neon", go "red dark aesthetic",
  go "blue glitch art", go "purple cyberpunk", go "green neon city",
  go "cyan dark mode", go "magenta high contrast", go "orange abstract dark",
  go "yellow digital art", go "pink pixel art", go "red retro dark",
  go "blue noir", go "purple monochrome", go "green dark minimalism",
  go "cyan glitch effect", go "magenta dark fantasy", go "orange gothic",
  go "yellow dark architecture", go "pink neon aesthetic", go "red dark city",
  go "blue night photography", go "purple dark abstract", go "green contrast photography",
  go "cyan dark textures", go "magenta glitch aesthetic", go "orange dark patterns",
  go "yellow dark mood", go "pink high contrast photography", go "red dark cyber",
  go "blue glitchy", go "purple dark neon", go "green minimalist dark",
  go "cyan dark geometric", go "magenta neon glow", go "orange dark surreal",
  go "yellow glitchcore", go "pink dark futuristic", go "red neon city",
  go "blue dark minimal", go "purple high contrast art", go "green dark digital",
  go "cyan neon art", go "magenta glitch photography", go "orange dark modern",
  go "yellow neon abstract", go "pink dark tech", go "red contrast art",
  go "blue dark visual", go "electric blue", go "neon red",
  go "cyber purple", go "glitch green", go "dark cyan",
  go "neon magenta", go "vaporwave orange", go "synthwave yellow",
  go "aesthetic pink", go "dark red", go "neon blue",
  go "cyber green", go "glitch cyan", go "dark magenta",
  go "neon orange", go "vaporwave yellow", go "synthwave pink"]

/-- The shipped value of `allowedSources`. -/
def allowedSources : List Str := [go "cosmos.so"]

structure MessageResponse where
  message : Str
  deriving DecidableEq, Repr

structure ImageResponse where
  query : Str
  imageURL : Str
  title : Str
  thumbnail : Str
  deriving DecidableEq, Repr

/-- The `image` object of an item of `GoogleSearchResponse`. -/
structure ItemImage where
  contextLink : Str
  height : Int
  width : Int
  byteSize : Int
  thumbnailLink : Str
  thumbnailHeight : Int
  thumbnailWidth : Int
  deriving DecidableEq, Repr

/-- An element of `GoogleSearchResponse.Items`. -/
structure Item where
  title : Str
  link : Str
  displayLink : Str
  image : ItemImage
  deriving DecidableEq, Repr

structure GoogleSearchResponse where
  items : List Item
  deriving DecidableEq, Repr

/-! ## The outside world -/

/-- What `json.NewDecoder(resp.Body).Decode(&searchResponse)` yields: an error
with its text, or the decoded value. -/
inductive Decoded where
  | fail (err : Str)
  | ok (v : GoogleSearchResponse)
  deriving DecidableEq, Repr

/-- The outcome of `http.Get(requestURL)`: a transport error with its text, or a
response with its status code, its raw body and what the body decodes to. -/
inductive HttpGetResult where
  | err (e : Str)
  | resp (statusCode : Int) (body : Str) (decoded : Decoded)
  deriving DecidableEq, Repr

/-- An outbound request: the base URL and the query parameters in the order of
the `params.Add` calls. -/
structure OutboundRequest where
  baseURL : Str
  params : List (Str × Str)
  deriving DecidableEq, Repr

/-- The part of `*http.Request` the handlers read. -/
structure Request where
  method : Str
  authorization : Option Str
  deriving DecidableEq, Repr

/-- The call `r.Header.Get("Authorization")`: the value of the header, the
empty string when the request has none. -/
def Request.headerGetAuthorization (r : Request) : Str :=
  match r.authorization with
  | none => []
  | some v => v

/-- Everything a handler depends on besides the request: the process
environment, `allowedSources`, the index drawn by `rand.Intn` and the outcome
of the provider call. -/
structure World where
  env : Str → Option Str
  allowedSources : List Str
  randIndex : Nat
  httpGet : HttpGetResult

/-- What is written to the `http.ResponseWriter`: plain text, or a value passed
to `json.NewEncoder(w).Encode`. -/
inductive Body where
  | text (s : Str)
  | image (v : ImageResponse)
  | message (v : MessageResponse)
  deriving DecidableEq, Repr

structure Response where
  status : Nat
  contentType : Str
  body : Body
  deriving DecidableEq, Repr

/-- The result of running a handler: the response and the outbound requests
made on the way. -/
structure Outcome where
  response : Response
  calls : List OutboundRequest
  deriving DecidableEq, Repr

/-- A handler; `none` is a run-time panic. -/
abbrev Handler := World → Request → Option Outcome

/-- The call `http.Error(w, msg, code)`: status `code`, plain text, the message
followed by a newline. -/
def httpError (msg : Str) (code : Nat) : Response :=
  { status := code, contentType := go "text/plain; charset=utf-8",
    body := Body.text (msg ++ go "\n") }

/-- The header `Content-Type: application/json` followed by `Encode(response)`;
the status is the implicit 200. -/
def jsonImage (v : ImageResponse) : Response :=
  { status := 200, contentType := go "application/json", body := Body.image v }

/-- The call `os.Getenv(key)`: the empty string when the variable is unset. -/
def osGetenv (env : Str → Option Str) (key : Str) : Str :=
  match env key with
  | none => []
  | some v => v

/-! ## The functions of `main.go` -/

def getEnv (env : Str → Option Str) (key defaultValue : Str) : Str :=
  let value := osGetenv env key
  if value ≠ [] then value else defaultValue

/-- The expression `randomStrings[rand.Intn(len(randomStrings))]`, with the value
of `rand.Intn` given; `none` is the index-out-of-range panic. -/
def getRandomString (i : Nat) : Option Str :=
  randomStrings[i]?

def extractDomain (displayLink : Str) : Str :=
  let domain := displayLink
  if domain.length > 4 ∧ domain.take 4 = go "www." then domain.drop 4 else domain

def isAllowedSource (allowedSources : List Str) (source : Str) : Bool :=
  match allowedSources with
  | [] => false
  | allowed :: rest =>
    if source = allowed then true
    else if source.length > allowed.length ∧
        source.drop (source.length - allowed.length - 1) = go "." ++ allowed then true
    else isAllowedSource rest source

/-- The loop of `buildSiteFilter`, at index `i` with `filter` built so far. -/
def buildSiteFilter.loop (i : Nat) (filter : Str) : List Str → Str
  | [] => filter
  | source :: rest =>
    let filter := if i > 0 then filter ++ go " " else filter
    buildSiteFilter.loop (i + 1) (filter ++ source) rest

def buildSiteFilter (allowedSources : List Str) : Str :=
  if allowedSources.length = 0 then []
  else buildSiteFilter.loop 0 [] allowedSources

/-- The request `searchGoogleImage` sends and its five return values
`(link, title, thumbnail, source, err)`; `err = none` is Go's `nil`. -/
def searchGoogleImage (allowedSources : List Str) (httpGet : HttpGetResult)
    (query apiKey searchEngineID : Str) :
    OutboundRequest × (Str × Str × Str × Str × Option Str) :=
  let baseURL := go "https://www.googleapis.com/customsearch/v1"
  let siteFilter := buildSiteFilter allowedSources
  let params : List (Str × Str) :=
    [(go "key", apiKey), (go "cx", searchEngineID), (go "q", query),
     (go "searchType", go "image"), (go "num", go "1"), (go "safe", go "active")]
  let params :=
    if siteFilter ≠ [] then
      params ++ [(go "siteSearch", siteFilter), (go "siteSearchFilter", go "i")]
    else params
  let request : OutboundRequest := { baseURL := baseURL, params := params }
  match httpGet with
  | HttpGetResult.err e =>
    (request, [], [], [], [], some (go "failed to make request: " ++ e))
  | HttpGetResult.resp statusCode body decoded =>
    if statusCode ≠ 200 then
      (request, [], [], [], [],
        some (go "API returned status " ++ fmtD statusCode ++ go ": " ++ body))
    else
      match decoded with
      | Decoded.fail e =>
        (request, [], [], [], [], some (go "failed to decode response: " ++ e))
      | Decoded.ok searchResponse =>
        match searchResponse.items with
        | [] =>
          (request, [], [], [], [], some (go "no images found for query: " ++ query))
        | item :: _ =>
          let source := extractDomain item.displayLink
          (request, item.link, item.title, item.image.thumbnailLink, source, none)

def rootHandler : Handler := fun _ _ =>
  some
    { response :=
        { status := 200, contentType := go "application/json",
          body := Body.message { message := go "Welcome to the Go API" } },
      calls := [] }

def requireAuth (next : Handler) : Handler := fun w r =>
  let apiKey := getEnv w.env (go "API_KEY") (go "")
  if apiKey = [] then
    some { response := httpError (go "API key not configured on server") 500, calls := [] }
  else
    let authHeader := r.headerGetAuthorization
    if authHeader = [] then
      some { response := httpError (go "Authorization header required") 401, calls := [] }
    else
      -- `strings.Split(authHeader, " ")`: 32 is the byte of the space
      match stringsSplit authHeader 32 with
      | [scheme, token] =>
        if scheme ≠ go "Bearer" then
          some { response :=
                   httpError (go "Invalid authorization header format. Use: Bearer <token>") 401,
                 calls := [] }
        else if token ≠ apiKey then
          some { response := httpError (go "Invalid API key") 401, calls := [] }
        else next w r
      | _ =>
        some { response :=
                 httpError (go "Invalid authorization header format. Use: Bearer <token>") 401,
               calls := [] }

def imageHandler : Handler := fun w r =>
  if r.method ≠ go "GET" then
    some { response := httpError (go "Method not allowed") 405, calls := [] }
  else
    match getRandomString w.randIndex with
    | none => none
    | some query =>
      let apiKey := getEnv w.env (go "GOOGLE_API_KEY") (go "")
      let searchEngineID := getEnv w.env (go "GOOGLE_SEARCH_ENGINE_ID") (go "")
      if apiKey = [] ∨ searchEngineID = [] then
        some { response := httpError (go "Google API credentials not configured") 500,
               calls := [] }
      else
        match searchGoogleImage w.allowedSources w.httpGet query apiKey searchEngineID with
        | (request, _, _, _, _, some err) =>
          some { response := httpError (go "Error searching for image: " ++ err) 500,
                 calls := [request] }
        | (request, imageURL, title, thumbnail, source, none) =>
          if ¬ isAllowedSource w.allowedSources source then
            some { response :=
                     httpError (go "No images found from allowed sources for query: " ++ query) 404,
                   calls := [request] }
          else
            some { response :=
                     jsonImage { query := query, imageURL := imageURL, title := title,
                                 thumbnail := thumbnail },
                   calls := [request] }

/-- The route `/api/image` as registered in `main`. -/
def apiImage : Handler := requireAuth imageHandler

/-! ## Specification-side notions and the scenarios of the spec -/

/-- The environment of the end-to-end scenarios: the three variables set. -/
def scenarioEnv : Str → Option Str := fun key =>
  if key = go "API_KEY" then some (go "secret")
  else if key = go "GOOGLE_API_KEY" then some (go "gkey")
  else if key = go "GOOGLE_SEARCH_ENGINE_ID" then some (go "cx")
  else none

/-- The one item the provider returns in the end-to-end scenarios. -/
def scenarioItem (displayLink : Str) : Item :=
  { title := go "Neon", link := go "https://cdn.cosmos.so/a.jpg", displayLink := displayLink,
    image :=
      { contextLink := go "https://www.cosmos.so/e/1", height := 600, width := 800,
        byteSize := 1000, thumbnailLink := go "https://t.example/1.jpg",
        thumbnailHeight := 60, thumbnailWidth := 80 } }

/-- The world of the end-to-end scenarios: the shipped allow-list, index 2
(`cyberpunk`) and a provider that answers 200 with the given items. -/
def scenarioWorld (items : List Item) : World :=
  { env := scenarioEnv, allowedSources := allowedSources, randIndex := 2,
    httpGet := HttpGetResult.resp 200 (go "json") (Decoded.ok { items := items }) }

/-- A `GET` request carrying the valid token of the scenarios. -/
def scenarioRequest : Request :=
  { method := go "GET", authorization := some (go "Bearer secret") }

/-- A world whose configured secret contains a space. -/
def spacedWorld : World :=
  { env := fun key => if key = go "API_KEY" then some (go "a b") else none,
    allowedSources := allowedSources, randIndex := 0,
    httpGet := HttpGetResult.err (go "unused") }

/-- A request whose header is `Bearer ` followed by the secret of `spacedWorld`. -/
def spacedRequest : Request :=
  { method := go "GET", authorization := some (go "Bearer a b") }
/-- The entries joined with one space between consecutive entries. -/
def spaceJoined : List Str → Str
  | [] => []
  | [a] => a
  | a :: b :: rest => a ++ go " " ++ spaceJoined (b :: rest)

/-- The index values for which `getRandomString` returns the term `t`. -/
def indicesReturning (t : Str) : List Nat :=
  (List.range randomStrings.length).filter (fun i => getRandomString i = some t)

/-- The wrapped handler is given control: whatever it is, the gate answers what it answers. -/
def PassesControl (w : World) (r : Request) : Prop :=
  ∀ next : Handler, requireAuth next w r = next w r
/-! ## Lemmas -/

theorem go_dot : go "." = [46] := by decide
theorem go_www : go "www." = [119, 119, 119, 46] := by decide

/-- The slice test of `isAllowedSource` is the suffix test. -/
theorem drop_eq_dot_iff (source allowed : Str) :
    source.drop (source.length - allowed.length - 1) = go "." ++ allowed ↔
      go "." ++ allowed <:+ source := by
  have hlen : (go "." ++ allowed).length = allowed.length + 1 := by
    simp [go_dot]
  constructor
  · intro hd
    rw [← hd]
    exact List.drop_suffix _ _
  · intro hs
    have := List.suffix_iff_eq_drop.mp hs
    rw [hlen] at this
    rw [Nat.sub_sub]
    exact this.symm

theorem isAllowedSource_spec (L : List Str) (d : Str) :
    isAllowedSource L d = true ↔
      ∃ a ∈ L, d = a ∨ (a.length < d.length ∧ go "." ++ a <:+ d) := by
  induction L with
  | nil => simp [isAllowedSource]
  | cons a rest ih =>
    unfold isAllowedSource
    by_cases h1 : d = a
    · simp [h1]
    · by_cases h2 : d.length > a.length ∧
          d.drop (d.length - a.length - 1) = go "." ++ a
      · rw [if_neg h1, if_pos h2]
        simp only [List.mem_cons, exists_eq_or_imp, true_iff]
        exact Or.inl (Or.inr ⟨h2.1, (drop_eq_dot_iff d a).mp h2.2⟩)
      · rw [if_neg h1, if_neg h2, ih]
        simp only [List.mem_cons, exists_eq_or_imp]
        constructor
        · intro h; exact Or.inr h
        · rintro (h | h)
          · rcases h with h | ⟨hl, hs⟩
            · exact absurd h h1
            · exact absurd ⟨hl, (drop_eq_dot_iff d a).mpr hs⟩ h2
          · exact h


theorem extractDomain_www (s : Str) (hs : s ≠ []) : extractDomain (go "www." ++ s) = s := by
  simp [extractDomain, go_www, hs]

theorem extractDomain_other (d : Str) (h : ¬ go "www." <+: d) : extractDomain d = d := by
  unfold extractDomain
  have : ¬ (d.length > 4 ∧ List.take 4 d = go "www.") := by
    rintro ⟨_, ht⟩
    apply h
    rw [← ht]
    exact List.take_prefix _ _
  simp only [this, if_false]

theorem go_space : go " " = [32] := by decide
theorem go_empty : go "" = [] := by decide

theorem length_filter_range_getElem? {α : Type} [DecidableEq α] [BEq α] [LawfulBEq α]
    (l : List α) (t : α) :
    ((List.range l.length).filter (fun i => l[i]? = some t)).length = l.count t := by
  induction l with
  | nil => simp
  | cons a l ih =>
    rw [List.length_cons, List.range_succ_eq_map, List.filter_cons, List.filter_map,
      List.count_cons]
    have hf : ((fun i => decide ((a :: l)[i]? = some t)) ∘ Nat.succ) =
        (fun i => decide (l[i]? = some t)) := by
      funext i; simp
    rw [hf]
    by_cases hat : a = t
    · simp [hat, ih]
    · simp [hat, ih]

theorem loop_pos (i : Nat) (hi : 0 < i) (filter : Str) (L : List Str) :
    buildSiteFilter.loop i filter L = filter ++ (L.map (fun s => go " " ++ s)).flatten := by
  induction L generalizing i filter with
  | nil => simp [buildSiteFilter.loop]
  | cons a rest ih =>
    simp only [buildSiteFilter.loop, hi, if_true]
    rw [ih (i + 1) (Nat.succ_pos i)]
    simp

theorem spaceJoined_cons (a : Str) (rest : List Str) :
    spaceJoined (a :: rest) = a ++ (rest.map (fun s => go " " ++ s)).flatten := by
  induction rest generalizing a with
  | nil => simp [spaceJoined]
  | cons b rest ih => simp [spaceJoined, ih b]

theorem buildSiteFilter_eq (L : List Str) : buildSiteFilter L = spaceJoined L := by
  cases L with
  | nil => simp [buildSiteFilter, spaceJoined]
  | cons a rest =>
    simp only [buildSiteFilter, List.length_cons, Nat.succ_ne_zero, if_false,
      buildSiteFilter.loop]
    rw [loop_pos 1 Nat.one_pos, spaceJoined_cons]
    simp

/-- The spec-side join is the library join with the separator `" "`. -/
theorem spaceJoined_eq_intercalate (L : List Str) :
    spaceJoined L = List.intercalate (go " ") L := by
  cases L with
  | nil => rfl
  | cons a rest =>
    rw [spaceJoined_cons]
    induction rest generalizing a with
    | nil => simp [List.intercalate]
    | cons b rest ih =>
      have := ih b
      simp [List.intercalate] at this ⊢
      simp [this]

theorem spaceJoined_eq_nil (L : List Str) : spaceJoined L = [] ↔ L = [] ∨ L = [[]] := by
  match L with
  | [] => simp [spaceJoined]
  | [a] => simp [spaceJoined]
  | a :: b :: rest => simp [spaceJoined, go_space]

theorem stringsSplit_ne_nil (s : Str) (sep : UInt8) : stringsSplit s sep ≠ [] := by
  induction s with
  | nil => simp [stringsSplit]
  | cons c cs ih =>
    unfold stringsSplit
    by_cases h : c = sep
    · simp [h]
    · simp only [h, if_false]
      split <;> simp

theorem stringsSplit_of_not_mem (s : Str) (sep : UInt8) (h : sep ∉ s) :
    stringsSplit s sep = [s] := by
  induction s with
  | nil => simp [stringsSplit]
  | cons c cs ih =>
    have hc : ¬ c = sep := fun e => h (by simp [e])
    have hcs : sep ∉ cs := fun e => h (List.mem_cons_of_mem _ e)
    unfold stringsSplit
    simp [hc, ih hcs]

theorem stringsSplit_append (a b : Str) (sep : UInt8) (h : sep ∉ a) :
    stringsSplit (a ++ sep :: b) sep = a :: stringsSplit b sep := by
  induction a with
  | nil => simp [stringsSplit]
  | cons c cs ih =>
    have hc : ¬ c = sep := fun e => h (by simp [e])
    have hcs : sep ∉ cs := fun e => h (List.mem_cons_of_mem _ e)
    rw [List.cons_append]
    simp [stringsSplit, hc, ih hcs]

theorem stringsSplit_single (s b : Str) (sep : UInt8) (h : stringsSplit s sep = [b]) :
    s = b ∧ sep ∉ b := by
  induction s generalizing b with
  | nil =>
    simp [stringsSplit] at h
    subst h; simp
  | cons c cs ih =>
    unfold stringsSplit at h
    by_cases hc : c = sep
    · simp only [hc, if_true] at h
      have : b = [] ∧ stringsSplit cs sep = [] := by simpa using h
      exact absurd this.2 (stringsSplit_ne_nil cs sep)
    · simp only [hc, if_false] at h
      cases hp : stringsSplit cs sep with
      | nil => exact absurd hp (stringsSplit_ne_nil cs sep)
      | cons p ps =>
        rw [hp] at h
        simp at h
        obtain ⟨h1, h2⟩ := h
        subst h2
        obtain ⟨e, hn⟩ := ih p hp
        subst h1 e
        refine ⟨rfl, ?_⟩
        simp only [List.mem_cons, not_or]
        exact ⟨fun e => hc e.symm, hn⟩

theorem stringsSplit_pair (s a b : Str) (sep : UInt8) (h : stringsSplit s sep = [a, b]) :
    s = a ++ sep :: b ∧ sep ∉ a ∧ sep ∉ b := by
  induction s generalizing a with
  | nil => simp [stringsSplit] at h
  | cons c cs ih =>
    unfold stringsSplit at h
    by_cases hc : c = sep
    · simp only [hc, if_true] at h
      simp at h
      obtain ⟨h1, h2⟩ := h
      obtain ⟨e, hn⟩ := stringsSplit_single cs b sep h2
      subst h1 e hc
      simp [hn]
    · simp only [hc, if_false] at h
      cases hp : stringsSplit cs sep with
      | nil => exact absurd hp (stringsSplit_ne_nil cs sep)
      | cons p ps =>
        rw [hp] at h
        simp at h
        obtain ⟨h1, h2⟩ := h
        subst h2
        obtain ⟨e, hn1, hn2⟩ := ih p hp
        subst h1
        refine ⟨by simp [e], ?_, hn2⟩
        simp only [List.mem_cons, not_or]
        exact ⟨fun e => hc e.symm, hn1⟩

theorem go_bearer_space : go "Bearer " = go "Bearer" ++ [32] := by decide
theorem space_not_mem_bearer : (32 : UInt8) ∉ go "Bearer" := by decide

theorem stringsSplit_bearer (token : Str) (h : (32 : UInt8) ∉ token) :
    stringsSplit (go "Bearer " ++ token) 32 = [go "Bearer", token] := by
  rw [go_bearer_space, List.append_assoc, List.singleton_append,
    stringsSplit_append _ _ _ space_not_mem_bearer, stringsSplit_of_not_mem _ _ h]

theorem stringsSplit_bearer_iff (header token : Str) :
    stringsSplit header 32 = [go "Bearer", token] ↔
      (header = go "Bearer " ++ token ∧ (32 : UInt8) ∉ token) := by
  constructor
  · intro h
    obtain ⟨e, _, hn⟩ := stringsSplit_pair _ _ _ _ h
    refine ⟨?_, hn⟩
    rw [e, go_bearer_space]; simp
  · rintro ⟨e, hn⟩
    rw [e]; exact stringsSplit_bearer token hn

theorem requireAuth_unconfigured (next : Handler) (w : World) (r : Request)
    (h : getEnv w.env (go "API_KEY") (go "") = []) :
    requireAuth next w r =
      some { response := httpError (go "API key not configured on server") 500, calls := [] } := by
  simp [requireAuth, h]

theorem requireAuth_no_header (next : Handler) (w : World) (r : Request)
    (h : getEnv w.env (go "API_KEY") (go "") ≠ []) (hh : r.headerGetAuthorization = []) :
    requireAuth next w r =
      some { response := httpError (go "Authorization header required") 401, calls := [] } := by
  simp [requireAuth, h, hh]

theorem requireAuth_bad_format (next : Handler) (w : World) (r : Request)
    (h : getEnv w.env (go "API_KEY") (go "") ≠ []) (hh : r.headerGetAuthorization ≠ [])
    (hf : ¬ ∃ token : Str, (32 : UInt8) ∉ token ∧
      r.headerGetAuthorization = go "Bearer " ++ token) :
    requireAuth next w r =
      some { response :=
               httpError (go "Invalid authorization header format. Use: Bearer <token>") 401,
             calls := [] } := by
  simp only [requireAuth, h, hh, if_false]
  split
  · rename_i scheme token hs
    by_cases hb : scheme = go "Bearer"
    · subst hb
      exact absurd ⟨token, ((stringsSplit_bearer_iff _ _).mp hs).2,
        ((stringsSplit_bearer_iff _ _).mp hs).1⟩ hf
    · simp [hb]
  · rfl

theorem requireAuth_invalid_key (next : Handler) (w : World) (r : Request) (token : Str)
    (h : getEnv w.env (go "API_KEY") (go "") ≠ [])
    (hn : (32 : UInt8) ∉ token) (hh : r.headerGetAuthorization = go "Bearer " ++ token)
    (hk : token ≠ getEnv w.env (go "API_KEY") (go "")) :
    requireAuth next w r =
      some { response := httpError (go "Invalid API key") 401, calls := [] } := by
  have hne : r.headerGetAuthorization ≠ [] := by
    rw [hh, go_bearer_space]; simp
  simp only [requireAuth, h, hne, if_false]
  rw [hh, stringsSplit_bearer token hn]
  simp [hk]

theorem requireAuth_pass (next : Handler) (w : World) (r : Request)
    (h : getEnv w.env (go "API_KEY") (go "") ≠ [])
    (hn : (32 : UInt8) ∉ getEnv w.env (go "API_KEY") (go ""))
    (hh : r.headerGetAuthorization = go "Bearer " ++ getEnv w.env (go "API_KEY") (go "")) :
    requireAuth next w r = next w r := by
  have hne : r.headerGetAuthorization ≠ [] := by
    rw [hh, go_bearer_space]; simp
  simp only [requireAuth, h, hne, if_false]
  rw [hh, stringsSplit_bearer _ hn]
  simp

/-- Either the gate hands over to the wrapped handler, or it answers by itself
with a 500 or a 401 and no outbound request, the same whatever the wrapped
handler is. -/
theorem requireAuth_cases (w : World) (r : Request) :
    (getEnv w.env (go "API_KEY") (go "") ≠ [] ∧
      (32 : UInt8) ∉ getEnv w.env (go "API_KEY") (go "") ∧
      r.headerGetAuthorization = go "Bearer " ++ getEnv w.env (go "API_KEY") (go "")) ∨
    ∃ (msg : Str) (code : Nat), (code = 500 ∨ code = 401) ∧ ∀ next : Handler,
      requireAuth next w r = some { response := httpError msg code, calls := [] } := by
  by_cases h : getEnv w.env (go "API_KEY") (go "") = []
  · exact Or.inr ⟨_, _, Or.inl rfl, fun next => requireAuth_unconfigured next w r h⟩
  by_cases hh : r.headerGetAuthorization = []
  · exact Or.inr ⟨_, _, Or.inr rfl, fun next => requireAuth_no_header next w r h hh⟩
  by_cases hf : ∃ token : Str, (32 : UInt8) ∉ token ∧
      r.headerGetAuthorization = go "Bearer " ++ token
  · obtain ⟨token, hn, e⟩ := hf
    by_cases hk : token = getEnv w.env (go "API_KEY") (go "")
    · subst hk
      exact Or.inl ⟨h, hn, e⟩
    · exact Or.inr ⟨_, _, Or.inr rfl,
        fun next => requireAuth_invalid_key next w r token h hn e hk⟩
  · exact Or.inr ⟨_, _, Or.inr rfl, fun next => requireAuth_bad_format next w r h hh hf⟩

theorem passesControl_iff (w : World) (r : Request) :
    PassesControl w r ↔
      (getEnv w.env (go "API_KEY") (go "") ≠ [] ∧
        (32 : UInt8) ∉ getEnv w.env (go "API_KEY") (go "") ∧
        r.headerGetAuthorization = go "Bearer " ++ getEnv w.env (go "API_KEY") (go "")) := by
  constructor
  · intro hp
    rcases requireAuth_cases w r with h | ⟨msg, code, _, h⟩
    · exact h
    · have := hp (fun _ _ => none)
      rw [h] at this
      cases this
  · rintro ⟨h, hn, e⟩ next
    exact requireAuth_pass next w r h hn e

theorem append_ne_of_getElem?_ne (a b x y : Str) (i : Nat) (ha : i < a.length)
    (hb : i < b.length) (h : a[i]? ≠ b[i]?) : a ++ x ≠ b ++ y := by
  intro e
  apply h
  have := congrArg (fun l => l[i]?) e
  simpa [List.getElem?_append_left ha, List.getElem?_append_left hb] using this

theorem messages_distinct (e : Str) (code : Int) (body e' q : Str) :
    go "failed to make request: " ++ e ≠ go "API returned status " ++ fmtD code ++ go ": " ++ body ∧
    go "failed to make request: " ++ e ≠ go "failed to decode response: " ++ e' ∧
    go "failed to make request: " ++ e ≠ go "no images found for query: " ++ q ∧
    go "API returned status " ++ fmtD code ++ go ": " ++ body ≠ go "failed to decode response: " ++ e' ∧
    go "API returned status " ++ fmtD code ++ go ": " ++ body ≠ go "no images found for query: " ++ q ∧
    go "failed to decode response: " ++ e' ≠ go "no images found for query: " ++ q := by
  simp only [List.append_assoc]
  refine ⟨?_, ?_, ?_, ?_, ?_, ?_⟩
  · exact append_ne_of_getElem?_ne _ _ _ _ 0 (by decide) (by decide) (by decide)
  · exact append_ne_of_getElem?_ne _ _ _ _ 10 (by decide) (by decide) (by decide)
  · exact append_ne_of_getElem?_ne _ _ _ _ 0 (by decide) (by decide) (by decide)
  · exact append_ne_of_getElem?_ne _ _ _ _ 0 (by decide) (by decide) (by decide)
  · exact append_ne_of_getElem?_ne _ _ _ _ 0 (by decide) (by decide) (by decide)
  · exact append_ne_of_getElem?_ne _ _ _ _ 0 (by decide) (by decide) (by decide)

theorem search_err (L : List Str) (q k id e : Str) :
    (searchGoogleImage L (HttpGetResult.err e) q k id).2 =
      ([], [], [], [], some (go "failed to make request: " ++ e)) := by
  simp [searchGoogleImage]

theorem search_status (L : List Str) (q k id : Str) (code : Int) (body : Str) (d : Decoded)
    (h : code ≠ 200) :
    (searchGoogleImage L (HttpGetResult.resp code body d) q k id).2 =
      ([], [], [], [], some (go "API returned status " ++ fmtD code ++ go ": " ++ body)) := by
  simp [searchGoogleImage, h]

theorem search_decode (L : List Str) (q k id body e : Str) :
    (searchGoogleImage L (HttpGetResult.resp 200 body (Decoded.fail e)) q k id).2 =
      ([], [], [], [], some (go "failed to decode response: " ++ e)) := by
  simp [searchGoogleImage]

theorem search_empty (L : List Str) (q k id body : Str) :
    (searchGoogleImage L (HttpGetResult.resp 200 body (Decoded.ok { items := [] })) q k id).2 =
      ([], [], [], [], some (go "no images found for query: " ++ q)) := by
  simp [searchGoogleImage]

theorem search_first (L : List Str) (q k id body : Str) (item : Item) (rest : List Item) :
    (searchGoogleImage L
        (HttpGetResult.resp 200 body (Decoded.ok { items := item :: rest })) q k id).2 =
      (item.link, item.title, item.image.thumbnailLink, extractDomain item.displayLink, none) := by
  simp [searchGoogleImage]

theorem search_ok_iff (L : List Str) (get : HttpGetResult) (q k id : Str) :
    (searchGoogleImage L get q k id).2.2.2.2.2 = none ↔
      ∃ body item rest,
        get = HttpGetResult.resp 200 body (Decoded.ok { items := item :: rest }) := by
  cases get with
  | err e => simp [search_err]
  | resp code body d =>
    by_cases hc : code = 200
    · subst hc
      cases d with
      | fail e => simp [search_decode]
      | ok v =>
        obtain ⟨items⟩ := v
        cases items with
        | nil => simp [search_empty]
        | cons item rest => simp [search_first]
    · simp [search_status _ _ _ _ _ _ _ hc, hc]

theorem getEnv_eq_nil_iff (env : Str → Option Str) (key : Str) :
    getEnv env key (go "") = [] ↔ env key = none ∨ env key = some [] := by
  unfold getEnv osGetenv
  cases h : env key with
  | none => simp; decide
  | some v =>
    by_cases hv : v = []
    · simp [hv]; decide
    · simp [hv]

theorem getRandomString_lt (i : Nat) (h : i < randomStrings.length) :
    getRandomString i = some (randomStrings.get ⟨i, h⟩) := by
  simp [getRandomString, List.getElem?_eq_getElem h]

theorem getRandomString_mem (i : Nat) (q : Str) (h : getRandomString i = some q) :
    q ∈ randomStrings := by
  unfold getRandomString at h
  exact List.getElem?_mem h

theorem imageHandler_method (w : World) (r : Request) (h : r.method ≠ go "GET") :
    imageHandler w r =
      some { response := httpError (go "Method not allowed") 405, calls := [] } := by
  simp [imageHandler, h]

theorem imageHandler_credentials (w : World) (r : Request) (query : Str)
    (hm : r.method = go "GET") (hq : getRandomString w.randIndex = some query)
    (hc : getEnv w.env (go "GOOGLE_API_KEY") (go "") = [] ∨
      getEnv w.env (go "GOOGLE_SEARCH_ENGINE_ID") (go "") = []) :
    imageHandler w r =
      some { response := httpError (go "Google API credentials not configured") 500,
             calls := [] } := by
  simp [imageHandler, hm, hq, hc]

theorem imageHandler_search_error (w : World) (r : Request)
    (query imageURL title thumbnail source err : Str) (request : OutboundRequest)
    (hm : r.method = go "GET") (hq : getRandomString w.randIndex = some query)
    (hk : getEnv w.env (go "GOOGLE_API_KEY") (go "") ≠ [])
    (hi : getEnv w.env (go "GOOGLE_SEARCH_ENGINE_ID") (go "") ≠ [])
    (hs : searchGoogleImage w.allowedSources w.httpGet query
        (getEnv w.env (go "GOOGLE_API_KEY") (go ""))
        (getEnv w.env (go "GOOGLE_SEARCH_ENGINE_ID") (go "")) =
      (request, imageURL, title, thumbnail, source, some err)) :
    imageHandler w r =
      some { response := httpError (go "Error searching for image: " ++ err) 500,
             calls := [request] } := by
  simp [imageHandler, hm, hq, hk, hi, hs]

theorem imageHandler_disallowed (w : World) (r : Request)
    (query imageURL title thumbnail source : Str) (request : OutboundRequest)
    (hm : r.method = go "GET") (hq : getRandomString w.randIndex = some query)
    (hk : getEnv w.env (go "GOOGLE_API_KEY") (go "") ≠ [])
    (hi : getEnv w.env (go "GOOGLE_SEARCH_ENGINE_ID") (go "") ≠ [])
    (hs : searchGoogleImage w.allowedSources w.httpGet query
        (getEnv w.env (go "GOOGLE_API_KEY") (go ""))
        (getEnv w.env (go "GOOGLE_SEARCH_ENGINE_ID") (go "")) =
      (request, imageURL, title, thumbnail, source, none))
    (ha : isAllowedSource w.allowedSources source = false) :
    imageHandler w r =
      some { response :=
               httpError (go "No images found from allowed sources for query: " ++ query) 404,
             calls := [request] } := by
  simp [imageHandler, hm, hq, hk, hi, hs, ha]

theorem imageHandler_ok (w : World) (r : Request)
    (query imageURL title thumbnail source : Str) (request : OutboundRequest)
    (hm : r.method = go "GET") (hq : getRandomString w.randIndex = some query)
    (hk : getEnv w.env (go "GOOGLE_API_KEY") (go "") ≠ [])
    (hi : getEnv w.env (go "GOOGLE_SEARCH_ENGINE_ID") (go "") ≠ [])
    (hs : searchGoogleImage w.allowedSources w.httpGet query
        (getEnv w.env (go "GOOGLE_API_KEY") (go ""))
        (getEnv w.env (go "GOOGLE_SEARCH_ENGINE_ID") (go "")) =
      (request, imageURL, title, thumbnail, source, none))
    (ha : isAllowedSource w.allowedSources source = true) :
    imageHandler w r =
      some { response :=
               jsonImage { query := query, imageURL := imageURL, title := title,
                           thumbnail := thumbnail },
             calls := [request] } := by
  simp [imageHandler, hm, hq, hk, hi, hs, ha]

/-- The five ways `imageHandler` ends, read off an outcome it produced. -/
theorem imageHandler_inv (w : World) (r : Request) (out : Outcome)
    (h : imageHandler w r = some out) :
    (out.calls = [] ∧ (out.response.status = 405 ∨ out.response.status = 500)) ∨
    ∃ (query imageURL title thumbnail source : Str) (request : OutboundRequest)
        (err : Option Str),
      r.method = go "GET" ∧ getRandomString w.randIndex = some query ∧
      getEnv w.env (go "GOOGLE_API_KEY") (go "") ≠ [] ∧
      getEnv w.env (go "GOOGLE_SEARCH_ENGINE_ID") (go "") ≠ [] ∧
      searchGoogleImage w.allowedSources w.httpGet query
          (getEnv w.env (go "GOOGLE_API_KEY") (go ""))
          (getEnv w.env (go "GOOGLE_SEARCH_ENGINE_ID") (go "")) =
        (request, imageURL, title, thumbnail, source, err) ∧
      out.calls = [request] ∧
      ((∃ e, err = some e ∧
          out.response = httpError (go "Error searching for image: " ++ e) 500) ∨
       (err = none ∧ isAllowedSource w.allowedSources source = false ∧
          out.response =
            httpError (go "No images found from allowed sources for query: " ++ query) 404) ∨
       (err = none ∧ isAllowedSource w.allowedSources source = true ∧
          out.response =
            jsonImage { query := query, imageURL := imageURL, title := title,
                        thumbnail := thumbnail })) := by
  by_cases hm : r.method = go "GET"
  swap
  · rw [imageHandler_method w r hm] at h
    cases h
    exact Or.inl ⟨rfl, Or.inl rfl⟩
  cases hq : getRandomString w.randIndex with
  | none => simp [imageHandler, hm, hq] at h
  | some query =>
    by_cases hc : getEnv w.env (go "GOOGLE_API_KEY") (go "") = [] ∨
        getEnv w.env (go "GOOGLE_SEARCH_ENGINE_ID") (go "") = []
    · rw [imageHandler_credentials w r query hm hq hc] at h
      cases h
      exact Or.inl ⟨rfl, Or.inr rfl⟩
    · have hk : getEnv w.env (go "GOOGLE_API_KEY") (go "") ≠ [] := fun e => hc (Or.inl e)
      have hi : getEnv w.env (go "GOOGLE_SEARCH_ENGINE_ID") (go "") ≠ [] :=
        fun e => hc (Or.inr e)
      right
      obtain ⟨request, imageURL, title, thumbnail, source, err, hs⟩ :
          ∃ request imageURL title thumbnail source err,
            searchGoogleImage w.allowedSources w.httpGet query
              (getEnv w.env (go "GOOGLE_API_KEY") (go ""))
              (getEnv w.env (go "GOOGLE_SEARCH_ENGINE_ID") (go "")) =
            (request, imageURL, title, thumbnail, source, err) := ⟨_, _, _, _, _, _, rfl⟩
      refine ⟨query, imageURL, title, thumbnail, source, request, err, hm, rfl, hk, hi, hs, ?_⟩
      cases err with
      | some e =>
        rw [imageHandler_search_error w r query imageURL title thumbnail source e request
          hm hq hk hi hs] at h
        cases h
        exact ⟨rfl, Or.inl ⟨e, rfl, rfl⟩⟩
      | none =>
        cases ha : isAllowedSource w.allowedSources source with
        | false =>
          rw [imageHandler_disallowed w r query imageURL title thumbnail source request
            hm hq hk hi hs ha] at h
          cases h
          exact ⟨rfl, Or.inr (Or.inl ⟨rfl, rfl, rfl⟩)⟩
        | true =>
          rw [imageHandler_ok w r query imageURL title thumbnail source request
            hm hq hk hi hs ha] at h
          cases h
          exact ⟨rfl, Or.inr (Or.inr ⟨rfl, rfl, rfl⟩)⟩

/-- An outcome of the route is an outcome of `imageHandler`, or the gate's own
answer: a 500 or a 401 with no outbound request. -/
theorem apiImage_inv (w : World) (r : Request) (out : Outcome)
    (h : apiImage w r = some out) :
    imageHandler w r = some out ∨
      (out.calls = [] ∧ (out.response.status = 500 ∨ out.response.status = 401)) := by
  unfold apiImage at h
  rcases requireAuth_cases w r with hp | ⟨msg, code, hc, hr⟩
  · rw [requireAuth_pass imageHandler w r hp.1 hp.2.1 hp.2.2] at h
    exact Or.inl h
  · rw [hr imageHandler] at h
    cases h
    exact Or.inr ⟨rfl, hc⟩

/-- The request `searchGoogleImage` builds does not depend on what the provider
answers: the six fixed parameters, then the two site parameters when the filter
is not empty. -/
theorem search_request (L : List Str) (get : HttpGetResult) (q k id : Str) :
    (searchGoogleImage L get q k id).1 =
      { baseURL := go "https://www.googleapis.com/customsearch/v1",
        params :=
          [(go "key", k), (go "cx", id), (go "q", q), (go "searchType", go "image"),
            (go "num", go "1"), (go "safe", go "active")] ++
          (if buildSiteFilter L = [] then []
           else [(go "siteSearch", buildSiteFilter L), (go "siteSearchFilter", go "i")]) } := by
  by_cases hb : buildSiteFilter L = []
  · cases get with
    | err e => simp [searchGoogleImage, hb]
    | resp code body d =>
      by_cases hc : code = 200
      · subst hc
        cases d with
        | fail e => simp [searchGoogleImage, hb]
        | ok v =>
          obtain ⟨items⟩ := v
          cases items <;> simp [searchGoogleImage, hb]
      · simp [searchGoogleImage, hb, hc]
  · cases get with
    | err e => simp [searchGoogleImage, hb]
    | resp code body d =>
      by_cases hc : code = 200
      · subst hc
        cases d with
        | fail e => simp [searchGoogleImage, hb]
        | ok v =>
          obtain ⟨items⟩ := v
          cases items <;> simp [searchGoogleImage, hb]
      · simp [searchGoogleImage, hb, hc]

/-! ## The claims -/

/-- C2. `isAllowedSource d` (with `allowedSources = L`) is true exactly when some
entry `a` of `L` equals `d`, or `d` is strictly longer than `a` and ends with a
dot followed by `a`; bytes are compared as they are, so the test is
case-sensitive. With `L = ["cosmos.so"]`: `cosmos.so` and `images.cosmos.so`
are allowed, `notcosmos.so`, `cosmos.soo` and `Cosmos.so` are not. -/
theorem isAllowedSource_iff_exact_or_dot_suffix :
    (∀ (L : List Str) (d : Str),
      isAllowedSource L d = true ↔
        ∃ a ∈ L, d = a ∨ (a.length < d.length ∧ go "." ++ a <:+ d)) ∧
    isAllowedSource [go "cosmos.so"] (go "cosmos.so") = true ∧
    isAllowedSource [go "cosmos.so"] (go "images.cosmos.so") = true ∧
    isAllowedSource [go "cosmos.so"] (go "notcosmos.so") = false ∧
    isAllowedSource [go "cosmos.so"] (go "cosmos.soo") = false ∧
    isAllowedSource [go "cosmos.so"] (go "Cosmos.so") = false :=
  ⟨isAllowedSource_spec, by decide, by decide, by decide, by decide, by decide⟩

/-- C5, as stated, fails: `www.` starts with `www.`, yet `extractDomain` returns
it unchanged, not the empty string left after its first four bytes. -/
theorem extractDomain_keeps_bare_www :
    go "www." <+: go "www." ∧ (go "www.").drop 4 = [] ∧
      extractDomain (go "www.") = go "www." ∧
      extractDomain (go "www.") ≠ (go "www.").drop 4 :=
  ⟨List.prefix_refl _, by decide, by decide, by decide⟩

/-- C5, amended. If the display link is strictly longer than four bytes and
starts with `www.`, `extractDomain` returns it without its first four bytes;
in every other case it returns it unchanged. `extractDomain("www.cosmos.so")`
and `extractDomain("cosmos.so")` are both `cosmos.so`. -/
theorem extractDomain_strips_www (d : Str) :
    (4 < d.length → go "www." <+: d → extractDomain d = d.drop 4) ∧
    (¬ (4 < d.length ∧ go "www." <+: d) → extractDomain d = d) ∧
    extractDomain (go "www.cosmos.so") = go "cosmos.so" ∧
    extractDomain (go "cosmos.so") = go "cosmos.so" := by
  refine ⟨?_, ?_, by decide, by decide⟩
  · rintro hl ⟨s, rfl⟩
    have hs : s ≠ [] := by
      rintro rfl
      simp [go_www] at hl
    rw [extractDomain_www s hs]
    simp [go_www]
  · intro h
    unfold extractDomain
    have : ¬ (d.length > 4 ∧ List.take 4 d = go "www.") := by
      rintro ⟨hl, ht⟩
      exact h ⟨hl, by rw [← ht]; exact List.take_prefix _ _⟩
    simp only [this, if_false]

/-- The amended C5 at `www.cosmos.so`. -/
theorem extractDomain_strips_www_witness :
    extractDomain (go "www.cosmos.so") = (go "www.cosmos.so").drop 4 :=
  (extractDomain_strips_www (go "www.cosmos.so")).1 (by decide) ⟨go "cosmos.so", by decide⟩

/-- C8. The vocabulary is non-empty; for an index `i` below its length
`getRandomString` does not go out of range and returns `randomStrings[i]`;
whatever it returns is a vocabulary entry; and every vocabulary entry is
returned for some index below the length. -/
theorem getRandomString_in_vocabulary :
    randomStrings ≠ [] ∧
    (∀ (i : Nat) (h : i < randomStrings.length),
      getRandomString i = some (randomStrings.get ⟨i, h⟩) ∧
        randomStrings.get ⟨i, h⟩ ∈ randomStrings) ∧
    (∀ (i : Nat) (q : Str), getRandomString i = some q → q ∈ randomStrings) ∧
    (∀ t ∈ randomStrings, ∃ i, i < randomStrings.length ∧ getRandomString i = some t) := by
  refine ⟨?_, ?_, getRandomString_mem, ?_⟩
  · simp [randomStrings]
  · intro i h
    exact ⟨getRandomString_lt i h, List.get_mem _ _ _⟩
  · intro t ht
    obtain ⟨i, hi, e⟩ := List.getElem_of_mem ht
    exact ⟨i, hi, by rw [getRandomString_lt i hi]; exact congrArg some e⟩

/-- C8 at index 2, where the term is `cyberpunk`. -/
theorem getRandomString_in_vocabulary_witness :
    getRandomString 2 = some (go "cyberpunk") ∧ go "cyberpunk" ∈ randomStrings :=
  ⟨by rfl, getRandomString_in_vocabulary.2.2.1 2 (go "cyberpunk") (by rfl)⟩

/-- C9. The code breaks the claim at the indices 19 and 27: both return
`neon aesthetic`, so among the 132 index values that term is returned for two
and every other vocabulary term for exactly one (a term outside the vocabulary
for none); the entries of `randomStrings` are not pairwise distinct. The repeat
is a slip of the list itself: with their first word (a colour) removed, the
entries 72 to 114 are the entries 6 to 49 in order, each once, with the repeated
entry 27 left out. -/
theorem randomStrings_has_duplicate :
    randomStrings.length = 132 ∧
    getRandomString 19 = some (go "neon aesthetic") ∧
    getRandomString 27 = some (go "neon aesthetic") ∧
    (indicesReturning (go "neon aesthetic")).length = 2 ∧
    (indicesReturning (go "glitch art")).length = 1 ∧
    ¬ randomStrings.Nodup ∧
    (∀ t : Str, (indicesReturning t).length =
      if t = go "neon aesthetic" then 2 else if t ∈ randomStrings then 1 else 0) ∧
    ((randomStrings.drop 72).take 43).map (fun e => (e.dropWhile (fun b => b != 32)).drop 1) =
      ((randomStrings.take 50).eraseIdx 27).drop 6 := by
  refine ⟨by rfl, by rfl, by rfl, by rfl, by rfl, ?_, ?_, by rfl⟩
  · intro hn
    have h : (⟨19, by simp [randomStrings]⟩ : Fin randomStrings.length) =
        ⟨27, by simp [randomStrings]⟩ :=
      (List.Nodup.get_inj_iff hn).mp (by rfl)
    exact absurd (Fin.mk.inj h) (by decide)
  · have hb : ∀ t ∈ randomStrings,
        randomStrings.count t = if t = go "neon aesthetic" then 2 else 1 := by decide
    intro t
    have hc : (indicesReturning t).length = randomStrings.count t := by
      unfold indicesReturning getRandomString
      exact length_filter_range_getElem? randomStrings t
    rw [hc]
    by_cases hm : t ∈ randomStrings
    · rw [hb t hm]
      by_cases hna : t = go "neon aesthetic"
      · simp [hna]
      · simp [hna, hm]
    · have hna : t ≠ go "neon aesthetic" := by
        rintro rfl
        exact hm (by decide)
      rw [List.count_eq_zero.mpr hm]
      simp [hna, hm]

/-- C10, as stated, fails: the allow-list holding one empty entry is non-empty,
yet its filter is the empty string and neither parameter is added. -/
theorem siteSearch_absent_for_empty_entry :
    ([go ""] : List Str) ≠ [] ∧ buildSiteFilter [go ""] = [] ∧
    go "siteSearch" ∉
      (searchGoogleImage [go ""] (HttpGetResult.err []) (go "q") (go "k") (go "cx")).1.params.map
        Prod.fst ∧
    go "siteSearchFilter" ∉
      (searchGoogleImage [go ""] (HttpGetResult.err []) (go "q") (go "k") (go "cx")).1.params.map
        Prod.fst :=
  ⟨by decide, by decide, by decide, by decide⟩

/-- C10, amended. `buildSiteFilter` returns the entries of the allow-list joined
with exactly one space between consecutive entries, in order (the empty string
for the empty list, `cosmos.so` for the shipped list), and `searchGoogleImage`
adds the `siteSearch` and `siteSearchFilter=i` parameters, after the six fixed
ones, if and only if that joined string is non-empty, that is if and only if the
allow-list is neither empty nor the one-entry list holding the empty string. -/
theorem buildSiteFilter_joins_and_restricts (L : List Str) (get : HttpGetResult)
    (q k id : Str) :
    buildSiteFilter L = spaceJoined L ∧
    buildSiteFilter L = List.intercalate (go " ") L ∧
    buildSiteFilter [] = [] ∧
    buildSiteFilter allowedSources = go "cosmos.so" ∧
    (searchGoogleImage L get q k id).1.params =
      [(go "key", k), (go "cx", id), (go "q", q), (go "searchType", go "image"),
        (go "num", go "1"), (go "safe", go "active")] ++
      (if L = [] ∨ L = [go ""] then []
       else [(go "siteSearch", spaceJoined L), (go "siteSearchFilter", go "i")]) ∧
    (((go "siteSearch", spaceJoined L) ∈ (searchGoogleImage L get q k id).1.params ∧
        (go "siteSearchFilter", go "i") ∈ (searchGoogleImage L get q k id).1.params) ↔
      (L ≠ [] ∧ L ≠ [go ""])) ∧
    ((go "siteSearch" ∈ (searchGoogleImage L get q k id).1.params.map Prod.fst ∨
        go "siteSearchFilter" ∈ (searchGoogleImage L get q k id).1.params.map Prod.fst) ↔
      (L ≠ [] ∧ L ≠ [go ""])) := by
  have hnil : buildSiteFilter L = [] ↔ (L = [] ∨ L = [go ""]) := by
    rw [buildSiteFilter_eq, go_empty]
    exact spaceJoined_eq_nil L
  have hp : (searchGoogleImage L get q k id).1.params =
      [(go "key", k), (go "cx", id), (go "q", q), (go "searchType", go "image"),
        (go "num", go "1"), (go "safe", go "active")] ++
      (if L = [] ∨ L = [go ""] then []
       else [(go "siteSearch", spaceJoined L), (go "siteSearchFilter", go "i")]) := by
    rw [search_request, ← buildSiteFilter_eq]
    by_cases hc : L = [] ∨ L = [go ""]
    · simp only [hnil.mpr hc, hc, if_true]
    · simp only [mt hnil.mp hc, hc, if_false]
  have hkeys : go "siteSearch" ≠ go "key" ∧ go "siteSearch" ≠ go "cx" ∧
      go "siteSearch" ≠ go "q" ∧ go "siteSearch" ≠ go "searchType" ∧
      go "siteSearch" ≠ go "num" ∧ go "siteSearch" ≠ go "safe" ∧
      go "siteSearchFilter" ≠ go "key" ∧ go "siteSearchFilter" ≠ go "cx" ∧
      go "siteSearchFilter" ≠ go "q" ∧ go "siteSearchFilter" ≠ go "searchType" ∧
      go "siteSearchFilter" ≠ go "num" ∧ go "siteSearchFilter" ≠ go "safe" := by decide
  obtain ⟨k1, k2, k3, k4, k5, k6, f1, f2, f3, f4, f5, f6⟩ := hkeys
  refine ⟨buildSiteFilter_eq L, by rw [buildSiteFilter_eq, spaceJoined_eq_intercalate],
    by decide, by decide, hp, ?_, ?_⟩
  · rw [hp]
    by_cases hc : L = [] ∨ L = [go ""]
    · have : ¬ (L ≠ [] ∧ L ≠ [go ""]) := by tauto
      simp [hc, this, k1, k2, k3, k4, k5, k6, f1, f2, f3, f4, f5, f6]
    · have : L ≠ [] ∧ L ≠ [go ""] := by tauto
      simp [hc, this]
  · rw [hp]
    by_cases hc : L = [] ∨ L = [go ""]
    · have : ¬ (L ≠ [] ∧ L ≠ [go ""]) := by tauto
      simp [hc, this, k1, k2, k3, k4, k5, k6, f1, f2, f3, f4, f5, f6]
    · have : L ≠ [] ∧ L ≠ [go ""] := by tauto
      simp [hc, this]

/-- C3, as stated, fails: with the non-empty secret `a b`, the header that is
exactly `Bearer ` followed by the secret splits into three parts and is answered
with the 401 of a malformed header; the wrapped handler is not run. -/
theorem requireAuth_rejects_secret_with_space :
    spacedWorld.env (go "API_KEY") = some (go "a b") ∧ go "a b" ≠ [] ∧
    spacedRequest.authorization = some (go "Bearer " ++ go "a b") ∧
    stringsSplit (go "Bearer a b") 32 = [go "Bearer", go "a", go "b"] ∧
    requireAuth imageHandler spacedWorld spacedRequest =
      some { response :=
               httpError (go "Invalid authorization header format. Use: Bearer <token>") 401,
             calls := [] } ∧
    ¬ PassesControl spacedWorld spacedRequest := by
  refine ⟨by decide, by decide, by decide, by decide, by decide, ?_⟩
  intro hp
  exact absurd (hp (fun _ _ => none)) (by decide)

/-- C3, amended. For every non-empty configured secret (`API_KEY`), a request
whose `Authorization` header is exactly `Bearer ` followed by the secret is
accepted, `requireAuth` passing control to the wrapped handler, if and only if
the secret contains no space. -/
theorem requireAuth_accepts_exact_bearer (w : World) (r : Request) (secret : Str)
    (hs : secret ≠ []) (he : w.env (go "API_KEY") = some secret)
    (hh : r.authorization = some (go "Bearer " ++ secret)) :
    PassesControl w r ↔ (32 : UInt8) ∉ secret := by
  have hg : getEnv w.env (go "API_KEY") (go "") = secret := by
    simp [getEnv, osGetenv, he, hs]
  have hhd : r.headerGetAuthorization = go "Bearer " ++ secret := by
    simp [Request.headerGetAuthorization, hh]
  rw [passesControl_iff, hg, hhd]
  constructor
  · exact fun h => h.2.1
  · exact fun h => ⟨hs, h, rfl⟩

/-- The amended C3 on the scenario request, whose secret is `secret`. -/
theorem requireAuth_accepts_exact_bearer_witness :
    PassesControl (scenarioWorld []) scenarioRequest :=
  (requireAuth_accepts_exact_bearer (scenarioWorld []) scenarioRequest (go "secret")
    (by decide) (by decide) (by decide)).mpr (by decide)

/-- C4. `requireAuth` passes control to the wrapped handler only if the secret
is non-empty and the header equals `Bearer ` followed by the secret. In every
other case it answers by itself, the same whatever the wrapped handler is and
with no outbound request: 500 when the secret is unset or empty, whatever the
header; else 401 `Authorization header required` when the header is absent
(`Header.Get` yields the empty string); else the 401 of a malformed header when
the header is not `Bearer`, one space and a token free of spaces (so for
`Basic x`); else 401 `Invalid API key` when that token differs from the
secret. -/
theorem requireAuth_gate (w : World) (r : Request) :
    (PassesControl w r →
      getEnv w.env (go "API_KEY") (go "") ≠ [] ∧
        r.headerGetAuthorization = go "Bearer " ++ getEnv w.env (go "API_KEY") (go "")) ∧
    (getEnv w.env (go "API_KEY") (go "") = [] ↔
      (w.env (go "API_KEY") = none ∨ w.env (go "API_KEY") = some [])) ∧
    (r.authorization = none → r.headerGetAuthorization = []) ∧
    (getEnv w.env (go "API_KEY") (go "") = [] →
      ∀ next : Handler, requireAuth next w r =
        some { response := httpError (go "API key not configured on server") 500,
               calls := [] }) ∧
    (getEnv w.env (go "API_KEY") (go "") ≠ [] → r.headerGetAuthorization = [] →
      ∀ next : Handler, requireAuth next w r =
        some { response := httpError (go "Authorization header required") 401,
               calls := [] }) ∧
    (getEnv w.env (go "API_KEY") (go "") ≠ [] → r.headerGetAuthorization ≠ [] →
      (¬ ∃ token : Str, (32 : UInt8) ∉ token ∧
        r.headerGetAuthorization = go "Bearer " ++ token) →
      ∀ next : Handler, requireAuth next w r =
        some { response :=
                 httpError (go "Invalid authorization header format. Use: Bearer <token>") 401,
               calls := [] }) ∧
    (getEnv w.env (go "API_KEY") (go "") ≠ [] →
      ∀ token : Str, (32 : UInt8) ∉ token →
        r.headerGetAuthorization = go "Bearer " ++ token →
        token ≠ getEnv w.env (go "API_KEY") (go "") →
        ∀ next : Handler, requireAuth next w r =
          some { response := httpError (go "Invalid API key") 401, calls := [] }) := by
  refine ⟨?_, getEnv_eq_nil_iff _ _, ?_, ?_, ?_, ?_, ?_⟩
  · intro hp
    have := (passesControl_iff w r).mp hp
    exact ⟨this.1, this.2.2⟩
  · intro h
    simp [Request.headerGetAuthorization, h]
  · exact fun h next => requireAuth_unconfigured next w r h
  · exact fun h hh next => requireAuth_no_header next w r h hh
  · exact fun h hh hf next => requireAuth_bad_format next w r h hh hf
  · exact fun h token hn hh hk next => requireAuth_invalid_key next w r token h hn hh hk

/-- C4 on a request without `Authorization` header (scenario 4) : a 401 and no
outbound request, although the provider would have answered. -/
theorem requireAuth_gate_witness :
    apiImage (scenarioWorld [scenarioItem (go "www.cosmos.so")])
        { method := go "GET", authorization := none } =
      some { response := httpError (go "Authorization header required") 401, calls := [] } :=
  (requireAuth_gate (scenarioWorld [scenarioItem (go "www.cosmos.so")])
      { method := go "GET", authorization := none }).2.2.2.2.1
    (by decide) (by decide) imageHandler

/-- C6. `searchGoogleImage` returns an error exactly when the transport fails,
the status is not 200, the body does not decode, or the decoded item list is
empty; the four cases have four messages, different from one another whatever
their variable parts are. In the remaining case it succeeds with the link, the
title, the thumbnail link and `extractDomain(displayLink)` of the first item,
whatever the other items are. -/
theorem searchGoogleImage_outcomes (L : List Str) (q k id : Str) :
    (∀ e : Str, (searchGoogleImage L (HttpGetResult.err e) q k id).2 =
      ([], [], [], [], some (go "failed to make request: " ++ e))) ∧
    (∀ (code : Int) (body : Str) (d : Decoded), code ≠ 200 →
      (searchGoogleImage L (HttpGetResult.resp code body d) q k id).2 =
        ([], [], [], [],
          some (go "API returned status " ++ fmtD code ++ go ": " ++ body))) ∧
    (∀ body e : Str,
      (searchGoogleImage L (HttpGetResult.resp 200 body (Decoded.fail e)) q k id).2 =
        ([], [], [], [], some (go "failed to decode response: " ++ e))) ∧
    (∀ body : Str,
      (searchGoogleImage L (HttpGetResult.resp 200 body (Decoded.ok { items := [] })) q k id).2 =
        ([], [], [], [], some (go "no images found for query: " ++ q))) ∧
    (∀ (body : Str) (item : Item) (rest : List Item),
      (searchGoogleImage L
          (HttpGetResult.resp 200 body (Decoded.ok { items := item :: rest })) q k id).2 =
        (item.link, item.title, item.image.thumbnailLink, extractDomain item.displayLink,
          none)) ∧
    (∀ get : HttpGetResult,
      (searchGoogleImage L get q k id).2.2.2.2.2 ≠ none ↔
        ((∃ e, get = HttpGetResult.err e) ∨
         (∃ code body d, get = HttpGetResult.resp code body d ∧ code ≠ 200) ∨
         (∃ body e, get = HttpGetResult.resp 200 body (Decoded.fail e)) ∨
         (∃ body, get = HttpGetResult.resp 200 body (Decoded.ok { items := [] })))) ∧
    (∀ (e : Str) (code : Int) (body e' : Str),
      go "failed to make request: " ++ e ≠
        go "API returned status " ++ fmtD code ++ go ": " ++ body ∧
      go "failed to make request: " ++ e ≠ go "failed to decode response: " ++ e' ∧
      go "failed to make request: " ++ e ≠ go "no images found for query: " ++ q ∧
      go "API returned status " ++ fmtD code ++ go ": " ++ body ≠
        go "failed to decode response: " ++ e' ∧
      go "API returned status " ++ fmtD code ++ go ": " ++ body ≠
        go "no images found for query: " ++ q ∧
      go "failed to decode response: " ++ e' ≠ go "no images found for query: " ++ q) := by
  refine ⟨search_err L q k id, fun code body d h => search_status L q k id code body d h,
    fun body e => search_decode L q k id body e, search_empty L q k id,
    search_first L q k id, ?_, fun e code body e' => messages_distinct e code body e' q⟩
  intro get
  cases get with
  | err e => simp [search_err]
  | resp code body d =>
    by_cases hc : code = 200
    · subst hc
      cases d with
      | fail e => simp [search_decode]
      | ok v =>
        obtain ⟨items⟩ := v
        cases items with
        | nil => simp [search_empty]
        | cons item rest => simp [search_first]
    · simp [search_status _ _ _ _ _ _ _ hc, hc]

/-- C6 on a provider that answers 403 with the body `quota`. -/
theorem searchGoogleImage_outcomes_witness :
    (searchGoogleImage allowedSources (HttpGetResult.resp 403 (go "quota") (Decoded.fail []))
        (go "cyberpunk") (go "gkey") (go "cx")).2 =
      ([], [], [], [], some (go "API returned status 403: quota")) :=
  (searchGoogleImage_outcomes allowedSources (go "cyberpunk") (go "gkey") (go "cx")).2.1
    403 (go "quota") (Decoded.fail []) (by decide)

/-- C1. For every outcome of the image endpoint (of `imageHandler` alone or
behind the auth gate): if the response is 200, the provider returned a first
item whose source domain, `extractDomain` of its display link, equals some
`allowedSources` entry or is strictly longer than it and ends with a dot
followed by it; and whenever the Search Client was called and succeeded with a
source domain that is not allowed, the response is the plain-text 404 naming the
selected query term, never a JSON image payload. -/
theorem image_endpoint_source_invariant (w : World) (r : Request) (out : Outcome)
    (h : imageHandler w r = some out ∨ apiImage w r = some out) :
    (out.response.status = 200 →
      ∃ (body : Str) (item : Item) (rest : List Item),
        w.httpGet = HttpGetResult.resp 200 body (Decoded.ok { items := item :: rest }) ∧
        ∃ a ∈ w.allowedSources,
          extractDomain item.displayLink = a ∨
            (a.length < (extractDomain item.displayLink).length ∧
              go "." ++ a <:+ extractDomain item.displayLink)) ∧
    (∀ (query imageURL title thumbnail source : Str) (request : OutboundRequest),
      out.calls ≠ [] →
      getRandomString w.randIndex = some query →
      searchGoogleImage w.allowedSources w.httpGet query
          (getEnv w.env (go "GOOGLE_API_KEY") (go ""))
          (getEnv w.env (go "GOOGLE_SEARCH_ENGINE_ID") (go "")) =
        (request, imageURL, title, thumbnail, source, none) →
      isAllowedSource w.allowedSources source = false →
      out.response =
          httpError (go "No images found from allowed sources for query: " ++ query) 404 ∧
        ∀ v : ImageResponse, out.response.body ≠ Body.image v) := by
  have hcases : imageHandler w r = some out ∨
      (out.calls = [] ∧ (out.response.status = 500 ∨ out.response.status = 401)) := by
    rcases h with h | h
    · exact Or.inl h
    · exact apiImage_inv w r out h
  constructor
  · intro h200
    rcases hcases with hi | ⟨_, hst⟩
    swap
    · omega
    rcases imageHandler_inv w r out hi with ⟨_, hst⟩ |
      ⟨query, imageURL, title, thumbnail, source, request, err, _, _, _, _, hs, _, hres⟩
    · omega
    rcases hres with ⟨e, _, hr⟩ | ⟨_, _, hr⟩ | ⟨herr, ha, _⟩
    · rw [hr] at h200
      simp [httpError] at h200
    · rw [hr] at h200
      simp [httpError] at h200
    · subst herr
      have hnone : (searchGoogleImage w.allowedSources w.httpGet query
          (getEnv w.env (go "GOOGLE_API_KEY") (go ""))
          (getEnv w.env (go "GOOGLE_SEARCH_ENGINE_ID") (go ""))).2.2.2.2.2 = none := by
        rw [hs]
      obtain ⟨body, item, rest, hget⟩ := (search_ok_iff _ _ _ _ _).mp hnone
      refine ⟨body, item, rest, hget, ?_⟩
      have hfirst := search_first w.allowedSources query
        (getEnv w.env (go "GOOGLE_API_KEY") (go ""))
        (getEnv w.env (go "GOOGLE_SEARCH_ENGINE_ID") (go "")) body item rest
      rw [← hget, hs] at hfirst
      have hsrc : source = extractDomain item.displayLink := by
        have := congrArg (fun p => p.2.2.2.1) hfirst
        simpa using this
      rw [← hsrc]
      exact (isAllowedSource_spec _ _).mp ha
  · intro query imageURL title thumbnail source request hcalls hq hs ha
    rcases hcases with hi | ⟨hc, _⟩
    swap
    · exact absurd hc hcalls
    rcases imageHandler_inv w r out hi with ⟨hc, _⟩ |
      ⟨query', imageURL', title', thumbnail', source', request', err', _, hq', _, _, hs', _,
        hres⟩
    · exact absurd hc hcalls
    rw [hq] at hq'
    cases hq'
    rw [hs] at hs'
    cases hs'
    rcases hres with ⟨e, he, _⟩ | ⟨_, _, hr⟩ | ⟨_, ha', _⟩
    · cases he
    · rw [hr]
      exact ⟨rfl, fun v hv => by simp [httpError] at hv⟩
    · rw [ha] at ha'
      cases ha'

/-- C1 on scenario 2 : a valid token and a provider that returns one item with
display link `example.com` give the 404 naming `cyberpunk`. -/
theorem image_endpoint_source_invariant_witness :
    apiImage (scenarioWorld [scenarioItem (go "example.com")]) scenarioRequest =
        some
          { response :=
              httpError (go "No images found from allowed sources for query: cyberpunk") 404,
            calls :=
              [(searchGoogleImage allowedSources
                  (scenarioWorld [scenarioItem (go "example.com")]).httpGet (go "cyberpunk")
                  (go "gkey") (go "cx")).1] } ∧
      (httpError (go "No images found from allowed sources for query: cyberpunk") 404 =
          httpError (go "No images found from allowed sources for query: " ++ go "cyberpunk")
            404 ∧
        ∀ v : ImageResponse,
          (httpError (go "No images found from allowed sources for query: cyberpunk")
              404).body ≠ Body.image v) :=
  ⟨by decide,
    (image_endpoint_source_invariant (scenarioWorld [scenarioItem (go "example.com")])
        scenarioRequest
        { response :=
            httpError (go "No images found from allowed sources for query: cyberpunk") 404,
          calls :=
            [(searchGoogleImage allowedSources
                (scenarioWorld [scenarioItem (go "example.com")]).httpGet (go "cyberpunk")
                (go "gkey") (go "cx")).1] }
        (Or.inr (by decide))).2
      (go "cyberpunk") (scenarioItem (go "example.com")).link
      (scenarioItem (go "example.com")).title
      (scenarioItem (go "example.com")).image.thumbnailLink (go "example.com")
      (searchGoogleImage allowedSources
        (scenarioWorld [scenarioItem (go "example.com")]).httpGet (go "cyberpunk")
        (go "gkey") (go "cx")).1
      (by decide) (by decide) (by rfl) (by decide)⟩

/-- C7. `imageHandler` decides in this order: a method other than `GET` gives
405 `Method not allowed`; otherwise, with the index in range, an unset or empty
`GOOGLE_API_KEY` or `GOOGLE_SEARCH_ENGINE_ID` gives 500; otherwise an error of
the Search Client gives 500 with a body that contains the error's message, so
`no images found` when the provider returns zero items; and a 200 response
carries the selected vocabulary term as `query` and the link, title and
thumbnail returned by the Search Client. -/
theorem imageHandler_decides_in_order (w : World) (r : Request) :
    (r.method ≠ go "GET" →
      imageHandler w r =
        some { response := httpError (go "Method not allowed") 405, calls := [] }) ∧
    (∀ key : Str, getEnv w.env key (go "") = [] ↔ (w.env key = none ∨ w.env key = some [])) ∧
    (r.method = go "GET" → w.randIndex < randomStrings.length →
      (getEnv w.env (go "GOOGLE_API_KEY") (go "") = [] ∨
        getEnv w.env (go "GOOGLE_SEARCH_ENGINE_ID") (go "") = []) →
      imageHandler w r =
        some { response := httpError (go "Google API credentials not configured") 500,
               calls := [] }) ∧
    (∀ (query imageURL title thumbnail source err : Str) (request : OutboundRequest),
      r.method = go "GET" → getRandomString w.randIndex = some query →
      getEnv w.env (go "GOOGLE_API_KEY") (go "") ≠ [] →
      getEnv w.env (go "GOOGLE_SEARCH_ENGINE_ID") (go "") ≠ [] →
      searchGoogleImage w.allowedSources w.httpGet query
          (getEnv w.env (go "GOOGLE_API_KEY") (go ""))
          (getEnv w.env (go "GOOGLE_SEARCH_ENGINE_ID") (go "")) =
        (request, imageURL, title, thumbnail, source, some err) →
      imageHandler w r =
          some { response := httpError (go "Error searching for image: " ++ err) 500,
                 calls := [request] } ∧
        (httpError (go "Error searching for image: " ++ err) 500).body =
          Body.text (go "Error searching for image: " ++ err ++ go "\n") ∧
        err <:+: go "Error searching for image: " ++ err ++ go "\n") ∧
    (∀ body : Str,
      r.method = go "GET" → w.randIndex < randomStrings.length →
      getEnv w.env (go "GOOGLE_API_KEY") (go "") ≠ [] →
      getEnv w.env (go "GOOGLE_SEARCH_ENGINE_ID") (go "") ≠ [] →
      w.httpGet = HttpGetResult.resp 200 body (Decoded.ok { items := [] }) →
      ∃ (out : Outcome) (text : Str),
        imageHandler w r = some out ∧ out.response.status = 500 ∧
          out.response.body = Body.text text ∧ go "no images found" <:+: text) ∧
    (∀ out : Outcome, imageHandler w r = some out → out.response.status = 200 →
      ∃ (query imageURL title thumbnail source : Str) (request : OutboundRequest),
        getRandomString w.randIndex = some query ∧ query ∈ randomStrings ∧
        searchGoogleImage w.allowedSources w.httpGet query
            (getEnv w.env (go "GOOGLE_API_KEY") (go ""))
            (getEnv w.env (go "GOOGLE_SEARCH_ENGINE_ID") (go "")) =
          (request, imageURL, title, thumbnail, source, none) ∧
        out.response =
          jsonImage { query := query, imageURL := imageURL, title := title,
                      thumbnail := thumbnail } ∧
        out.response.body =
          Body.image { query := query, imageURL := imageURL, title := title,
                       thumbnail := thumbnail }) := by
  refine ⟨imageHandler_method w r, fun key => getEnv_eq_nil_iff w.env key, ?_, ?_, ?_, ?_⟩
  · intro hm hi hc
    exact imageHandler_credentials w r _ hm (getRandomString_lt _ hi) hc
  · intro query imageURL title thumbnail source err request hm hq hk hi hs
    refine ⟨imageHandler_search_error w r query imageURL title thumbnail source err request
      hm hq hk hi hs, rfl, ?_⟩
    exact ⟨go "Error searching for image: ", go "\n", rfl⟩
  · intro body hm hlt hk hi hget
    have hq := getRandomString_lt _ hlt
    have hs : searchGoogleImage w.allowedSources w.httpGet (randomStrings.get ⟨_, hlt⟩)
          (getEnv w.env (go "GOOGLE_API_KEY") (go ""))
          (getEnv w.env (go "GOOGLE_SEARCH_ENGINE_ID") (go "")) =
        ((searchGoogleImage w.allowedSources w.httpGet (randomStrings.get ⟨_, hlt⟩)
          (getEnv w.env (go "GOOGLE_API_KEY") (go ""))
          (getEnv w.env (go "GOOGLE_SEARCH_ENGINE_ID") (go ""))).1, [], [], [], [],
          some (go "no images found for query: " ++ randomStrings.get ⟨_, hlt⟩)) := by
      rw [Prod.ext_iff]
      refine ⟨rfl, ?_⟩
      rw [hget]
      exact search_empty _ _ _ _ _
    refine ⟨_, _, imageHandler_search_error w r _ [] [] [] [] _ _ hm hq hk hi hs, rfl, rfl, ?_⟩
    refine ⟨go "Error searching for image: ",
      go " for query: " ++ randomStrings.get ⟨_, hlt⟩ ++ go "\n", ?_⟩
    have e1 : go "no images found for query: " = go "no images found" ++ go " for query: " := by
      decide
    rw [e1]
    simp only [List.append_assoc]
  · intro out ho h200
    rcases imageHandler_inv w r out ho with ⟨_, hst⟩ |
      ⟨query, imageURL, title, thumbnail, source, request, err, _, hq, _, _, hs, _, hres⟩
    · omega
    rcases hres with ⟨e, _, hr⟩ | ⟨_, _, hr⟩ | ⟨herr, _, hr⟩
    · rw [hr] at h200
      simp [httpError] at h200
    · rw [hr] at h200
      simp [httpError] at h200
    · subst herr
      exact ⟨query, imageURL, title, thumbnail, source, request, hq,
        getRandomString_mem _ _ hq, hs, hr, by rw [hr]; rfl⟩

/-- C7 on scenario 3 : the provider returns zero items and the answer is a 500
whose body contains `no images found`. -/
theorem imageHandler_decides_in_order_witness :
    ∃ (out : Outcome) (text : Str),
      imageHandler (scenarioWorld []) scenarioRequest = some out ∧
        out.response.status = 500 ∧ out.response.body = Body.text text ∧
        go "no images found" <:+: text :=
  (imageHandler_decides_in_order (scenarioWorld []) scenarioRequest).2.2.2.2.1 (go "json")
    (by decide) (by decide) (by decide) (by decide) (by decide)

end ScraperApi
